import Mathlib

/-!
# nnforge/cuda/maxout_layer_updater_schema.cpp

A shallow embedding of the maxout updater schema of nnForge's CUDA backend.

The translation unit defines the member functions of one class,
`maxout_layer_updater_schema`: a constructor with an empty body and three `const` member
functions:

* `create_specific`         : `new maxout_layer_updater_schema()` wrapped in a shared pointer;
* `get_uuid`                : a reference to the static `maxout_layer::layer_guid`;
* `create_updater_specific` : `new maxout_layer_updater_cuda()` wrapped in a shared pointer,
                              whatever the two configurations passed in.

The two functions that build an object run `new`, so they are embedded as functions on an
explicit heap: a table of cells indexed by address, each cell holding the object and the use
count of the shared pointer control block that owns it.

The declaration of the class and of its base is in headers that are not part of the sources.
A schema object therefore carries member data of unknown content, `members`, and statelessness
is proved of the three function bodies: none of them reads it.
-/

namespace nnforge

/-- A `boost::uuids::uuid`: a 128-bit value. -/
structure uuid where
  data : Fin (2 ^ 128)
  deriving DecidableEq, Repr

/-- Modelled from the spec: `layer_configuration_specific` is declared in a header that is not
part of the sources; it is "an immutable value describing a concrete layer's tensor shape
(dimensions, channel counts)". -/
structure layer_configuration_specific where
  channels : Nat
  dimensions : List Nat
  deriving DecidableEq, Repr

/-- Modelled from the spec: the failures a schema call can raise (section 7). The class
`neural_network_exception` that would carry them is included by the translation unit and
declared outside of it. -/
inductive failure where
  | unsupported_type
  | configuration_mismatch
  | duplicate_registration
  | resource_allocation
  deriving DecidableEq, Repr

/-- Modelled from the spec: the example shape-transformation rule "output channels = input
channels / k" of a layer kind that divides the channel count by a fixed factor `k`. No rule is
written in the sources. -/
def channel_division_rule (k : Nat)
    (input_configuration_specific output_configuration_specific : layer_configuration_specific) :
    Prop :=
  output_configuration_specific.channels = input_configuration_specific.channels / k

instance channel_division_rule.decide_rule (k : Nat) (i o : layer_configuration_specific) :
    Decidable (channel_division_rule k i o) := by
  unfold channel_division_rule
  infer_instance

namespace cuda

/-- Modelled from the spec: class `maxout_layer_updater_schema` and its base
`layer_updater_schema` are declared in headers outside the sources, so the data members of a
schema object are not known. An object is taken as the values `members` held by whatever data
members those declarations give it; the schema of the spec, with "attributes: none beyond
identity", is the case of no member value. -/
structure maxout_layer_updater_schema where
  members : List Nat
  deriving DecidableEq, Repr

/-- Lines 29-31: the constructor `maxout_layer_updater_schema::maxout_layer_updater_schema()`
(a declaration named after its own namespace would shadow the class name, hence `ctor`).
Its initialiser list and its body are empty: it takes no argument and assigns no data member,
so the object it builds holds no member value. -/
def maxout_layer_updater_schema.ctor : maxout_layer_updater_schema := ⟨[]⟩

/-- Modelled from the spec: class `maxout_layer_updater_cuda` is declared in
`maxout_layer_updater_cuda.h`, outside the sources. The translation unit only ever calls its
constructor without arguments, so the one value of this type is the default-constructed
updater. -/
structure maxout_layer_updater_cuda where
  deriving DecidableEq, Repr

/-- The objects this translation unit builds with `new`, tagged by their dynamic class. -/
inductive object where
  | schema (s : maxout_layer_updater_schema)
  | updater (u : maxout_layer_updater_cuda)
  deriving DecidableEq, Repr

/-- One heap cell: an object and the use count of the shared pointer control block owning it. -/
structure cell where
  obj : object
  use_count : Nat
  deriving DecidableEq, Repr

/-- The heap: cells indexed by address; a freed address holds `none`. -/
structure heap where
  cells : List (Option cell)
  deriving DecidableEq, Repr

/-- The heap before any allocation. -/
def heap.empty : heap := ⟨[]⟩

/-- The live cell at an address, if any. -/
def heap.get (h : heap) (a : Nat) : Option cell :=
  match h.cells[a]? with
  | some c => c
  | none => none

/-- The expression `smart_ptr(new T())`: the object is placed at the first address never used
before, and the shared pointer built from the raw pointer is its only owner (use count 1). The
result is the address held by the shared pointer and the heap after the allocation. -/
def heap.new (h : heap) (o : object) : Nat × heap :=
  (h.cells.length, ⟨h.cells ++ [some ⟨o, 1⟩]⟩)

/-- Destruction of one shared pointer holding address `p`: the use count drops by one and the
object is deleted when the last owner goes. -/
def heap.release (h : heap) (p : Nat) : heap :=
  match h.get p with
  | some c =>
    if c.use_count ≤ 1 then ⟨h.cells.set p none⟩
    else ⟨h.cells.set p (some ⟨c.obj, c.use_count - 1⟩)⟩
  | none => h

/-- Lines 37-40:
`return layer_updater_schema_smart_ptr(new maxout_layer_updater_schema());` -/
def maxout_layer_updater_schema.create_specific (_self : maxout_layer_updater_schema)
    (h : heap) : Nat × heap :=
  h.new (object.schema maxout_layer_updater_schema.ctor)

/-- Lines 42-45: `return maxout_layer::layer_guid;`. The static `maxout_layer::layer_guid` is
defined outside the sources and is taken as the parameter `layer_guid`. -/
def maxout_layer_updater_schema.get_uuid (layer_guid : uuid)
    (_self : maxout_layer_updater_schema) : uuid :=
  layer_guid

/-- Lines 47-52: `return layer_updater_cuda_smart_ptr(new maxout_layer_updater_cuda());`.
The first parameter is the input configuration (the source names it
`hyperbolic_tangent_layer_hessian_schema`), the second the output configuration; the body
mentions neither. The body has no `throw`: every path ends in the `return`, embedded as
`Except.ok`. -/
def maxout_layer_updater_schema.create_updater_specific (_self : maxout_layer_updater_schema)
    (_hyperbolic_tangent_layer_hessian_schema : layer_configuration_specific)
    (_output_configuration_specific : layer_configuration_specific)
    (h : heap) : Except failure (Nat × heap) :=
  Except.ok (h.new (object.updater maxout_layer_updater_cuda.mk))

/-- The object a successful call returned: the cell behind the returned shared pointer, read
from the heap the call left. A failed call returned none. -/
def returned_object : Except failure (Nat × heap) → Option cell
  | Except.ok (p, h) => h.get p
  | Except.error _ => none

/-! ## The heap -/

theorem heap.get_beyond (h : heap) (a : Nat) (ha : h.cells.length ≤ a) : h.get a = none := by
  have hnone : h.cells[a]? = none := List.getElem?_eq_none ha
  simp [heap.get, hnone]

theorem heap.new_length (h : heap) (o : object) :
    (h.new o).2.cells.length = h.cells.length + 1 := by
  simp [heap.new]

theorem heap.get_new_self (h : heap) (o : object) :
    (h.new o).2.get (h.new o).1 = some ⟨o, 1⟩ := by
  simp [heap.get, heap.new]

theorem heap.get_new_ne (h : heap) (o : object) (a : Nat) (ha : a ≠ h.cells.length) :
    (h.new o).2.get a = h.get a := by
  rcases Nat.lt_or_gt_of_ne ha with hlt | hgt
  · simp [heap.get, heap.new, List.getElem?_append_left hlt]
  · have h1 : h.cells[a]? = none := List.getElem?_eq_none (Nat.le_of_lt hgt)
    have h2 : (h.cells ++ [some (⟨o, 1⟩ : cell)])[a]? = none :=
      List.getElem?_eq_none (by simp; omega)
    simp [heap.get, heap.new, h1, h2]

theorem heap.get_new_live (h : heap) (o : object) (a : Nat) (c : cell)
    (hc : h.get a = some c) : (h.new o).2.get a = some c := by
  have ha : a ≠ h.cells.length := by
    intro heq
    rw [heq, heap.get_beyond h _ (Nat.le_refl _)] at hc
    cases hc
  rw [heap.get_new_ne h o a ha, hc]

theorem heap.get_release_ne (h : heap) (p a : Nat) (ha : a ≠ p) :
    (h.release p).get a = h.get a := by
  unfold heap.release
  split
  · split <;> simp [heap.get, List.getElem?_set_ne (Ne.symm ha)]
  · rfl

theorem heap.get_release_last (h : heap) (p : Nat) (o : object)
    (hp : h.get p = some ⟨o, 1⟩) : (h.release p).get p = none := by
  have hlt : p < h.cells.length := by
    by_contra hge
    rw [heap.get_beyond h p (Nat.le_of_not_lt hge)] at hp
    cases hp
  unfold heap.release
  rw [hp]
  simp [heap.get, List.getElem?_set_self hlt]

/-! ## get_uuid -/

/-- C2: on every maxout updater schema instance `get_uuid` returns the constant
`maxout_layer::layer_guid`; two instances, whichever they are and whatever was called on them
before, report the same identity. -/
theorem get_uuid_is_layer_guid (layer_guid : uuid) (s s' : maxout_layer_updater_schema) :
    s.get_uuid layer_guid = layer_guid ∧ s.get_uuid layer_guid = s'.get_uuid layer_guid :=
  ⟨rfl, rfl⟩

/-! ## create_specific -/

/-- C3: `create_specific` on a maxout updater schema `s` returns a shared pointer to a newly
allocated object whose dynamic class is again the maxout updater schema, and `get_uuid` on that
object equals `get_uuid` on `s`. -/
theorem create_specific_same_variant (layer_guid : uuid) (s : maxout_layer_updater_schema)
    (h : heap) :
    ∃ s' : maxout_layer_updater_schema,
      (s.create_specific h).2.get (s.create_specific h).1 = some ⟨object.schema s', 1⟩ ∧
      h.get (s.create_specific h).1 = none ∧
      s'.get_uuid layer_guid = s.get_uuid layer_guid := by
  refine ⟨maxout_layer_updater_schema.ctor, ?_, ?_, rfl⟩
  · exact heap.get_new_self h _
  · exact heap.get_beyond h _ (Nat.le_refl _)

/-! ## create_updater_specific -/

/-- C9: `create_updater_specific` ignores both configuration arguments: for any two pairs it
returns the same value, a shared pointer to a default-constructed maxout CUDA updater, and the
result is never an error. -/
theorem create_updater_specific_ignores_configurations (s : maxout_layer_updater_schema)
    (in1 out1 in2 out2 : layer_configuration_specific) (h : heap) :
    s.create_updater_specific in1 out1 h = s.create_updater_specific in2 out2 h ∧
    s.create_updater_specific in1 out1 h =
      Except.ok (h.new (object.updater maxout_layer_updater_cuda.mk)) ∧
    returned_object (s.create_updater_specific in1 out1 h) =
      some ⟨object.updater maxout_layer_updater_cuda.mk, 1⟩ ∧
    ∀ e : failure, s.create_updater_specific in1 out1 h ≠ Except.error e := by
  refine ⟨rfl, rfl, ?_, ?_⟩
  · exact heap.get_new_self h _
  · intro e he
    cases he

/-- C4: for every pair of configurations compatible with the layer kind's rule,
`create_updater_specific` succeeds and the shared pointer it returns points to a newly
allocated object of the maxout CUDA updater class, owned by that pointer alone. -/
theorem create_updater_specific_compatible
    (rule : layer_configuration_specific → layer_configuration_specific → Prop)
    (s : maxout_layer_updater_schema)
    (input_configuration_specific output_configuration_specific : layer_configuration_specific)
    (h : heap)
    (_hcompatible : rule input_configuration_specific output_configuration_specific) :
    ∃ p h', s.create_updater_specific input_configuration_specific
        output_configuration_specific h = Except.ok (p, h') ∧
      h.get p = none ∧
      h'.get p = some ⟨object.updater maxout_layer_updater_cuda.mk, 1⟩ := by
  refine ⟨h.cells.length, (h.new (object.updater maxout_layer_updater_cuda.mk)).2, rfl, ?_, ?_⟩
  · exact heap.get_beyond h _ (Nat.le_refl _)
  · exact heap.get_new_self h _

/-- Witness of C4: the pair ({channels:4}, {channels:2}) under the rule "output channels = input
channels / 2". -/
theorem create_updater_specific_compatible_witness :
    channel_division_rule 2 ⟨4, []⟩ ⟨2, []⟩ ∧
    ∃ p h', maxout_layer_updater_schema.create_updater_specific maxout_layer_updater_schema.ctor
        ⟨4, []⟩ ⟨2, []⟩ heap.empty = Except.ok (p, h') ∧
      heap.empty.get p = none ∧
      h'.get p = some ⟨object.updater maxout_layer_updater_cuda.mk, 1⟩ :=
  ⟨by decide,
   create_updater_specific_compatible (channel_division_rule 2) maxout_layer_updater_schema.ctor
     ⟨4, []⟩ ⟨2, []⟩ heap.empty (by decide)⟩

/-- C1 as stated fails: the pair ({channels:4}, {channels:3}) breaks the rule "output channels =
input channels / 2", yet `create_updater_specific` does not fail with a configuration mismatch;
it returns an updater at address 0 of the heap it leaves. -/
theorem create_updater_specific_4_3_not_rejected :
    ¬ channel_division_rule 2 ⟨4, []⟩ ⟨3, []⟩ ∧
    maxout_layer_updater_schema.create_updater_specific maxout_layer_updater_schema.ctor
        ⟨4, []⟩ ⟨3, []⟩ heap.empty ≠ Except.error failure.configuration_mismatch ∧
    maxout_layer_updater_schema.create_updater_specific maxout_layer_updater_schema.ctor
        ⟨4, []⟩ ⟨3, []⟩ heap.empty =
      Except.ok (0, ⟨[some ⟨object.updater maxout_layer_updater_cuda.mk, 1⟩]⟩) := by
  refine ⟨by decide, ?_, rfl⟩
  intro he
  cases he

/-- C1, amended: `create_updater_specific` makes no shape check. Called with a pair that is
incompatible with the layer kind's rule it raises no failure, a configuration mismatch
included: it succeeds and returns a newly constructed maxout CUDA updater, at an address that
held no live object before the call and owned by the returned pointer alone. -/
theorem create_updater_specific_incompatible_not_rejected
    (rule : layer_configuration_specific → layer_configuration_specific → Prop)
    (s : maxout_layer_updater_schema)
    (input_configuration_specific output_configuration_specific : layer_configuration_specific)
    (h : heap)
    (_hincompatible : ¬ rule input_configuration_specific output_configuration_specific) :
    (∀ e : failure, s.create_updater_specific input_configuration_specific
        output_configuration_specific h ≠ Except.error e) ∧
    returned_object (s.create_updater_specific input_configuration_specific
        output_configuration_specific h) =
      some ⟨object.updater maxout_layer_updater_cuda.mk, 1⟩ ∧
    ∃ p h', s.create_updater_specific input_configuration_specific
        output_configuration_specific h = Except.ok (p, h') ∧
      h.get p = none ∧
      h'.get p = some ⟨object.updater maxout_layer_updater_cuda.mk, 1⟩ ∧
      (∀ b c, h.get b = some c → h'.get b = some c) := by
  refine ⟨?_, ?_, h.cells.length, (h.new (object.updater maxout_layer_updater_cuda.mk)).2,
    rfl, ?_, ?_, ?_⟩
  · intro e he
    cases he
  · exact heap.get_new_self h _
  · exact heap.get_beyond h _ (Nat.le_refl _)
  · exact heap.get_new_self h _
  · intro b c hb
    exact heap.get_new_live h _ b c hb

/-- Witness of the amended C1: the pair ({channels:4}, {channels:3}) under the rule "output
channels = input channels / 2". -/
theorem create_updater_specific_incompatible_not_rejected_witness :
    ¬ channel_division_rule 2 ⟨4, []⟩ ⟨3, []⟩ ∧
    (∀ e : failure, maxout_layer_updater_schema.create_updater_specific
        maxout_layer_updater_schema.ctor ⟨4, []⟩ ⟨3, []⟩ heap.empty ≠
          Except.error e) ∧
    returned_object (maxout_layer_updater_schema.create_updater_specific
        maxout_layer_updater_schema.ctor ⟨4, []⟩ ⟨3, []⟩ heap.empty) =
      some ⟨object.updater maxout_layer_updater_cuda.mk, 1⟩ ∧
    ∃ p h', maxout_layer_updater_schema.create_updater_specific
        maxout_layer_updater_schema.ctor ⟨4, []⟩ ⟨3, []⟩ heap.empty =
          Except.ok (p, h') ∧
      heap.empty.get p = none ∧
      h'.get p = some ⟨object.updater maxout_layer_updater_cuda.mk, 1⟩ ∧
      (∀ b c, heap.empty.get b = some c → h'.get b = some c) :=
  ⟨by decide,
   create_updater_specific_incompatible_not_rejected (channel_division_rule 2)
     maxout_layer_updater_schema.ctor ⟨4, []⟩ ⟨3, []⟩ heap.empty
     (by decide)⟩

/-- C7: the updater returned by `create_updater_specific` is determined by the (schema, input
configuration, output configuration) triple. Two calls on one triple, run from any two heaps
(whatever was allocated or released before), both succeed and return equal updater objects;
run from the same heap they return equal results altogether. -/
theorem create_updater_specific_determined (s : maxout_layer_updater_schema)
    (input_configuration_specific output_configuration_specific : layer_configuration_specific)
    (h1 h2 : heap) :
    (∃ c : cell,
      returned_object (s.create_updater_specific input_configuration_specific
        output_configuration_specific h1) = some c ∧
      returned_object (s.create_updater_specific input_configuration_specific
        output_configuration_specific h2) = some c) ∧
    (h1 = h2 →
      s.create_updater_specific input_configuration_specific output_configuration_specific h1 =
      s.create_updater_specific input_configuration_specific output_configuration_specific h2) := by
  refine ⟨⟨⟨object.updater maxout_layer_updater_cuda.mk, 1⟩, ?_, ?_⟩, ?_⟩
  · exact heap.get_new_self h1 _
  · exact heap.get_new_self h2 _
  · intro heq
    rw [heq]

/-- C5: `create_updater_specific` leaves the schema it is called on unchanged. When the schema
`s` lives at address `a` of the heap, the call succeeds and every cell that was live before it,
the one at `a` included, is the same after it; the schema read back from `a` reports the same
`get_uuid` and answers any further `create_updater_specific` call as a newly constructed schema
does. -/
theorem create_updater_specific_keeps_schema (layer_guid : uuid)
    (s : maxout_layer_updater_schema)
    (input_configuration_specific output_configuration_specific : layer_configuration_specific)
    (h : heap) (a n : Nat) (hs : h.get a = some ⟨object.schema s, n⟩) :
    ∃ p h', s.create_updater_specific input_configuration_specific
        output_configuration_specific h = Except.ok (p, h') ∧
      h'.get a = some ⟨object.schema s, n⟩ ∧
      (∀ b c, h.get b = some c → h'.get b = some c) ∧
      (∀ s' : maxout_layer_updater_schema, h'.get a = some ⟨object.schema s', n⟩ →
        s'.get_uuid layer_guid = s.get_uuid layer_guid ∧
        ∀ in2 out2 h2, s'.create_updater_specific in2 out2 h2 =
          maxout_layer_updater_schema.create_updater_specific maxout_layer_updater_schema.ctor
            in2 out2 h2) := by
  refine ⟨h.cells.length, (h.new (object.updater maxout_layer_updater_cuda.mk)).2, rfl,
    ?_, ?_, ?_⟩
  · exact heap.get_new_live h _ a _ hs
  · intro b c hb
    exact heap.get_new_live h _ b c hb
  · intro s' _
    exact ⟨rfl, fun _ _ _ => rfl⟩

/-- Witness of C5: a heap whose only cell is a maxout updater schema, at address 0. -/
theorem create_updater_specific_keeps_schema_witness :
    heap.get ⟨[some ⟨object.schema maxout_layer_updater_schema.ctor, 1⟩]⟩ 0 =
      some ⟨object.schema maxout_layer_updater_schema.ctor, 1⟩ ∧
    ∃ p h', maxout_layer_updater_schema.create_updater_specific maxout_layer_updater_schema.ctor
        ⟨4, []⟩ ⟨3, []⟩ ⟨[some ⟨object.schema maxout_layer_updater_schema.ctor, 1⟩]⟩ =
          Except.ok (p, h') ∧
      h'.get 0 = some ⟨object.schema maxout_layer_updater_schema.ctor, 1⟩ ∧
      (∀ b c, heap.get ⟨[some ⟨object.schema maxout_layer_updater_schema.ctor, 1⟩]⟩ b = some c →
        h'.get b = some c) ∧
      (∀ s' : maxout_layer_updater_schema, h'.get 0 = some ⟨object.schema s', 1⟩ →
        s'.get_uuid ⟨7⟩ = maxout_layer_updater_schema.get_uuid ⟨7⟩ maxout_layer_updater_schema.ctor ∧
        ∀ in2 out2 h2, s'.create_updater_specific in2 out2 h2 =
          maxout_layer_updater_schema.create_updater_specific maxout_layer_updater_schema.ctor
            in2 out2 h2) :=
  ⟨rfl,
   create_updater_specific_keeps_schema ⟨7⟩ maxout_layer_updater_schema.ctor ⟨4, []⟩ ⟨3, []⟩
     ⟨[some ⟨object.schema maxout_layer_updater_schema.ctor, 1⟩]⟩ 0 1 rfl⟩

/-- C6: the maxout updater schema is stateless. None of its member functions reads the object
it is called on: any two instances, whatever member data they hold and whether built by the
constructor or by `create_specific`, give equal results from `get_uuid`, `create_specific` and
`create_updater_specific` on every input. The instance `create_specific` builds is the one the
constructor builds, with no member value, whatever the instance it was called on. -/
theorem schema_instances_indistinguishable (layer_guid : uuid)
    (s1 s2 : maxout_layer_updater_schema)
    (input_configuration_specific output_configuration_specific : layer_configuration_specific)
    (h : heap) :
    s1.get_uuid layer_guid = s2.get_uuid layer_guid ∧
    s1.create_specific h = s2.create_specific h ∧
    s1.create_updater_specific input_configuration_specific output_configuration_specific h =
      s2.create_updater_specific input_configuration_specific output_configuration_specific h ∧
    (∃ s' : maxout_layer_updater_schema,
      (s1.create_specific h).2.get (s1.create_specific h).1 = some ⟨object.schema s', 1⟩ ∧
      s'.members = [] ∧
      s' = maxout_layer_updater_schema.ctor ∧
      s'.get_uuid layer_guid = s1.get_uuid layer_guid ∧
      s'.create_specific h = s1.create_specific h ∧
      s'.create_updater_specific input_configuration_specific output_configuration_specific h =
        s1.create_updater_specific input_configuration_specific
          output_configuration_specific h) := by
  refine ⟨rfl, rfl, rfl, maxout_layer_updater_schema.ctor, ?_, rfl, rfl, rfl, rfl, rfl⟩
  exact heap.get_new_self h _

/-- C8: two successive `create_updater_specific` calls on one schema with different valid shape
pairs both succeed, and each returns a newly allocated updater: the two addresses differ, none
was live before its call, and each object has its returned pointer as only owner. Destroying
either pointer deletes its own object and leaves the other object as it was. -/
theorem create_updater_specific_independent
    (rule : layer_configuration_specific → layer_configuration_specific → Prop)
    (s : maxout_layer_updater_schema)
    (in1 out1 in2 out2 : layer_configuration_specific) (h : heap)
    (_hvalid1 : rule in1 out1) (_hvalid2 : rule in2 out2)
    (_hdifferent : (in1, out1) ≠ (in2, out2)) :
    ∃ p1 h1 p2 h2,
      s.create_updater_specific in1 out1 h = Except.ok (p1, h1) ∧
      s.create_updater_specific in2 out2 h1 = Except.ok (p2, h2) ∧
      p1 ≠ p2 ∧
      h.get p1 = none ∧ h1.get p2 = none ∧
      h2.get p1 = some ⟨object.updater maxout_layer_updater_cuda.mk, 1⟩ ∧
      h2.get p2 = some ⟨object.updater maxout_layer_updater_cuda.mk, 1⟩ ∧
      (h2.release p1).get p1 = none ∧
      (h2.release p1).get p2 = some ⟨object.updater maxout_layer_updater_cuda.mk, 1⟩ ∧
      (h2.release p2).get p2 = none ∧
      (h2.release p2).get p1 = some ⟨object.updater maxout_layer_updater_cuda.mk, 1⟩ := by
  have hne : h.cells.length ≠
      (h.new (object.updater maxout_layer_updater_cuda.mk)).2.cells.length := by
    rw [heap.new_length]
    omega
  have hp2 : ((h.new (object.updater maxout_layer_updater_cuda.mk)).2.new
      (object.updater maxout_layer_updater_cuda.mk)).2.get
        (h.new (object.updater maxout_layer_updater_cuda.mk)).2.cells.length =
      some ⟨object.updater maxout_layer_updater_cuda.mk, 1⟩ :=
    heap.get_new_self _ _
  have hp1 : ((h.new (object.updater maxout_layer_updater_cuda.mk)).2.new
      (object.updater maxout_layer_updater_cuda.mk)).2.get h.cells.length =
      some ⟨object.updater maxout_layer_updater_cuda.mk, 1⟩ :=
    heap.get_new_live _ _ _ _ (heap.get_new_self h _)
  refine ⟨h.cells.length, (h.new (object.updater maxout_layer_updater_cuda.mk)).2,
    (h.new (object.updater maxout_layer_updater_cuda.mk)).2.cells.length,
    ((h.new (object.updater maxout_layer_updater_cuda.mk)).2.new
      (object.updater maxout_layer_updater_cuda.mk)).2,
    rfl, rfl, hne, ?_, ?_, hp1, hp2, ?_, ?_, ?_, ?_⟩
  · exact heap.get_beyond h _ (Nat.le_refl _)
  · exact heap.get_beyond _ _ (Nat.le_refl _)
  · exact heap.get_release_last _ _ _ hp1
  · rw [heap.get_release_ne _ _ _ (Ne.symm hne)]
    exact hp2
  · exact heap.get_release_last _ _ _ hp2
  · rw [heap.get_release_ne _ _ _ hne]
    exact hp1

/-- Witness of C8: the pairs ({channels:4}, {channels:2}) and ({channels:6}, {channels:3}),
both valid under the rule "output channels = input channels / 2", from the empty heap. -/
theorem create_updater_specific_independent_witness :
    channel_division_rule 2 ⟨4, []⟩ ⟨2, []⟩ ∧ channel_division_rule 2 ⟨6, []⟩ ⟨3, []⟩ ∧
    ((⟨4, []⟩, ⟨2, []⟩) : layer_configuration_specific × layer_configuration_specific) ≠
      (⟨6, []⟩, ⟨3, []⟩) ∧
    ∃ p1 h1 p2 h2,
      maxout_layer_updater_schema.create_updater_specific maxout_layer_updater_schema.ctor
        ⟨4, []⟩ ⟨2, []⟩ heap.empty = Except.ok (p1, h1) ∧
      maxout_layer_updater_schema.create_updater_specific maxout_layer_updater_schema.ctor
        ⟨6, []⟩ ⟨3, []⟩ h1 = Except.ok (p2, h2) ∧
      p1 ≠ p2 ∧
      heap.empty.get p1 = none ∧ h1.get p2 = none ∧
      h2.get p1 = some ⟨object.updater maxout_layer_updater_cuda.mk, 1⟩ ∧
      h2.get p2 = some ⟨object.updater maxout_layer_updater_cuda.mk, 1⟩ ∧
      (h2.release p1).get p1 = none ∧
      (h2.release p1).get p2 = some ⟨object.updater maxout_layer_updater_cuda.mk, 1⟩ ∧
      (h2.release p2).get p2 = none ∧
      (h2.release p2).get p1 = some ⟨object.updater maxout_layer_updater_cuda.mk, 1⟩ :=
  ⟨by decide, by decide, by decide,
   create_updater_specific_independent (channel_division_rule 2) maxout_layer_updater_schema.ctor
     ⟨4, []⟩ ⟨2, []⟩ ⟨6, []⟩ ⟨3, []⟩ heap.empty (by decide) (by decide) (by decide)⟩

end cuda

end nnforge
